import Mathlib

/-!
Verification development for the STREETLIGHT-PK civic-issue reporting backend.

The definitions below are a shallow embedding, in Lean, of the decision
pipeline of the repository:

* `backend/ai_layers/layer0_validation/input_validator.py`
  (`InputValidator.validate_all` and its sub-checks),
* `backend/ai_layers/layer1_ai_engine/landmark_detector/verifier.py`
  (`GPSVerifier.verify_location`, `_calculate_score_adjustment`,
  `_is_valid_coordinate`),
* `backend/ai_layers/layer1_ai_engine/ai_engine.py`
  (`AIEngine.predict` score computation, `_estimate_severity`),
* `backend/utils/layer_orchestrator.py` (`LayerOrchestrator.process_report`).

Numbers are modelled with exact rationals (`ℚ`); Python's `round(x, n)`
(round-half-to-even) and `int(x)` (truncation toward zero) are modelled
explicitly.  Image decoding, the neural classifier and the external
geocoding/landmark HTTP services cannot be embedded, so the corresponding
values (per-check outcomes, classifier confidence, extracted EXIF GPS,
geocoder and landmark-finder responses, the haversine distance value) enter
the embedded functions as explicit parameters; everything downstream of those
inputs is translated from the source line by line.  User-facing message
strings whose source text interpolates floating-point values are modelled as
an inductive "template plus arguments" type where a claim depends on them,
and as their fixed template text otherwise.
-/

/-- Python's `round(x)` to an integer: round half to even (banker's rounding),
modelled on exact rationals. -/
def pyRoundInt (q : ℚ) : ℤ :=
  if q - ⌊q⌋ < 1/2 then ⌊q⌋
  else if 1/2 < q - ⌊q⌋ then ⌊q⌋ + 1
  else if ⌊q⌋ % 2 = 0 then ⌊q⌋ else ⌊q⌋ + 1

/-- Python's `round(x, nd)` for `nd` decimal places, on exact rationals. -/
def pyRound (q : ℚ) (nd : ℕ) : ℚ :=
  (pyRoundInt (q * 10 ^ nd) : ℚ) / 10 ^ nd

/-- Python's `int(x)` conversion: truncation toward zero. -/
def pyTrunc (q : ℚ) : ℤ :=
  if 0 ≤ q then ⌊q⌋ else -⌊-q⌋

theorem floor_le_pyRoundInt (q : ℚ) : ⌊q⌋ ≤ pyRoundInt q := by
  unfold pyRoundInt
  split_ifs <;> omega

theorem pyRoundInt_le_ceil (q : ℚ) : pyRoundInt q ≤ ⌈q⌉ := by
  unfold pyRoundInt
  split_ifs with h1 h2 h3
  · exact Int.floor_le_ceil q
  · have hq : (⌊q⌋ : ℚ) < q := by linarith
    have : ⌊q⌋ < ⌈q⌉ := by
      rw [Int.lt_ceil]
      exact_mod_cast hq
    omega
  · exact Int.floor_le_ceil q
  · have hr : (1 : ℚ)/2 = q - ⌊q⌋ := le_antisymm (le_of_not_lt h1) (le_of_not_lt h2)
    have hq : (⌊q⌋ : ℚ) < q := by linarith
    have : ⌊q⌋ < ⌈q⌉ := by
      rw [Int.lt_ceil]
      exact_mod_cast hq
    omega

theorem pyRoundInt_intCast (n : ℤ) : pyRoundInt (n : ℚ) = n := by
  unfold pyRoundInt
  simp

/-- If `q` already has at most `nd` decimal places (i.e. `q * 10 ^ nd` is an
integer), then Python rounding to `nd` places returns `q` unchanged. -/
theorem pyRound_eq_self (q : ℚ) (nd : ℕ) (h : (q * 10 ^ nd).den = 1) :
    pyRound q nd = q := by
  have hnum : ((q * 10 ^ nd).num : ℚ) = q * 10 ^ nd := by
    rw [← Rat.num_div_den (q * 10 ^ nd), h]
    simp
  unfold pyRound
  rw [← hnum, pyRoundInt_intCast, hnum]
  field_simp

theorem pyRoundInt_nonneg (q : ℚ) (h : 0 ≤ q) : 0 ≤ pyRoundInt q := by
  have := floor_le_pyRoundInt q
  have h0 : (0 : ℤ) ≤ ⌊q⌋ := Int.floor_nonneg.2 h
  omega

theorem pyRoundInt_le_of_le (q : ℚ) (n : ℤ) (h : q ≤ n) : pyRoundInt q ≤ n := by
  have := pyRoundInt_le_ceil q
  have hc : ⌈q⌉ ≤ n := Int.ceil_le.2 h
  omega

/-!
## Layer 0 - `InputValidator` (`input_validator.py`)

Each `_check_*` method returns a dict `{name, passed, score, message}`;
we model it as the structure `VCheck`.  The checks that examine the image
bytes (file size, decodability, color mode, dimensions, aspect ratio,
resolution, blur, brightness, content, timestamp) cannot be embedded, so
`validate_all` receives their `passed`/`score`/`message` outcome as a
`VBody` parameter while fixing each check's `name` exactly as in the source.
`_check_screenshot_detection` and `_check_gps` are embedded in full from
their inputs (image width/height and EXIF-tag count, resp. the submitted
coordinates).
-/

/-- Outcome of one quality sub-check (`{'name', 'passed', 'score', 'message'}`). -/
structure VCheck where
  name : String
  passed : Bool
  score : ℚ
  message : String
deriving DecidableEq, Repr

/-- The image-dependent part of a check outcome (everything but the fixed name). -/
structure VBody where
  passed : Bool
  score : ℚ
  message : String
deriving DecidableEq, Repr

def mkCheck (name : String) (b : VBody) : VCheck :=
  { name := name, passed := b.passed, score := b.score, message := b.message }

/-- The five hard-error check names of `validate_all` (line 135). -/
def hardErrorNames : List String :=
  ["File Validity", "Resolution", "Blur Detection", "Brightness", "GPS Validation"]

/-- `'warning' in check['message'].lower()` (line 139). -/
def containsWarning (s : String) : Bool :=
  decide (List.IsInfix "warning".toList s.toLower.toList)

/-- The error/warning collection loop of `validate_all` (lines 133-141):
a failed hard-error check's message goes to `errors`, any other failed
check's message goes to `warnings`, and a passed check whose message
contains `'warning'` also goes to `warnings`, in check order. -/
def collectEW : List VCheck → List String × List String
  | [] => ([], [])
  | c :: rest =>
    let ew := collectEW rest
    if c.passed = false then
      if c.name ∈ hardErrorNames then (c.message :: ew.1, ew.2)
      else (ew.1, c.message :: ew.2)
    else if containsWarning c.message then (ew.1, c.message :: ew.2)
    else ew

/-- The per-check weights of `_calculate_quality` (lines 881-899); unknown
names default to 1.0. -/
def check_weight (name : String) : ℚ :=
  if name = "File Size" then 2
  else if name = "File Validity" then 2
  else if name = "Color Mode" then 9/5
  else if name = "Dimension Limits" then 2
  else if name = "Aspect Ratio" then 3/2
  else if name = "Resolution" then 3/2
  else if name = "Blur Detection" then 9/5
  else if name = "Brightness" then 3/2
  else if name = "Content Validation" then 17/10
  else if name = "Timestamp" then 4/5
  else if name = "Screenshot Detection" then 1/2
  else if name = "GPS Validation" then 6/5
  else 1

/-- `_calculate_quality` (lines 869-912): weighted mean of the check scores,
0 when the total weight is 0. -/
def calculate_quality (checks : List VCheck) : ℚ :=
  let total_score := checks.foldl (fun acc c => acc + c.score * check_weight c.name) 0
  let total_weight := checks.foldl (fun acc c => acc + check_weight c.name) 0
  if total_weight = 0 then 0 else total_score / total_weight

/-- Input to `_check_screenshot_detection`: image width/height and number of
EXIF tags (`none` when `img._getexif()` is `None`), or `err` when opening
the image raised (the `except` branch, lines 799-807). -/
inductive ScreenshotInput where
  | ok (width height : ℕ) (exifCount : Option ℕ)
  | err
deriving DecidableEq, Repr

/-- `SCREENSHOT_RATIOS` (lines 64-69). -/
def SCREENSHOT_RATIOS : List (ℕ × ℕ) := [(16, 9), (9, 16), (18, 9), (19, 9)]

/-- The aspect-ratio loop of `_check_screenshot_detection` (lines 770-776):
does the ratio match a common screen ratio within 0.05? -/
def screenshot_ratio_match (width height : ℕ) : Bool :=
  SCREENSHOT_RATIOS.any fun rh =>
    decide (|(if height > 0 then (width : ℚ) / height else 0) - (rh.1 : ℚ) / rh.2| < 1/20)

/-- `exif_data is None or len(exif_data) < 5` (line 779). -/
def minimal_exif : Option ℕ → Bool
  | none => true
  | some n => decide (n < 5)

/-- `_check_screenshot_detection` (lines 750-807).  It always passes: score
60 with a warning message when the heuristic triggers, 80 when reading the
image raised, 100 otherwise. -/
def check_screenshot_detection : ScreenshotInput → VCheck
  | .ok w h e =>
    if screenshot_ratio_match w h && minimal_exif e then
      { name := "Screenshot Detection", passed := true, score := 60,
        message := "Warning: Image appears to be a screenshot (aspect ratio, no camera EXIF). Please submit original photos." }
    else
      { name := "Screenshot Detection", passed := true, score := 100,
        message := "Image appears to be an original photo" }
  | .err =>
    { name := "Screenshot Detection", passed := true, score := 80,
      message := "Could not determine if screenshot (check skipped)" }

/-- `_check_gps` (lines 479-544): coordinates are required, rounded to 6
decimal places (`GPS_MAX_DECIMAL_PLACES`), then checked against the Pakistan
bounds `[23, 37] x [60, 78]`.  (The numeric interpolation in the messages is
elided; the `float()`-conversion `except` branch cannot fire on `ℚ` inputs.) -/
def check_gps (latitude longitude : Option ℚ) : VCheck :=
  match latitude, longitude with
  | some lat0, some lon0 =>
    let lat := pyRound lat0 6
    let lon := pyRound lon0 6
    let lat_valid := decide (23 ≤ lat ∧ lat ≤ 37)
    let lon_valid := decide (60 ≤ lon ∧ lon ≤ 78)
    if lat_valid && lon_valid then
      { name := "GPS Validation", passed := true, score := 100,
        message := "Valid Pakistan location" }
    else
      { name := "GPS Validation", passed := false, score := 0,
        message := "GPS location outside Pakistan bounds" }
  | _, _ =>
    { name := "GPS Validation", passed := false, score := 0,
      message := "GPS coordinates required for validation" }

/-- The result dict of `validate_all` (lines 152-160; the `filename` field is
omitted as no embedded computation reads it). -/
structure ValidationReport where
  is_valid : Bool
  overall_quality : ℚ
  errors : List String
  warnings : List String
  checks : List VCheck
deriving DecidableEq, Repr

/-- `validate_all` (lines 81-165): runs the fixed battery of twelve checks in
source order, collects errors/warnings, computes the weighted quality, and
sets `is_valid` iff there is no error. -/
def validate_all (fs fv cm dl ar res bl br cv ts : VBody)
    (scr : ScreenshotInput) (lat lon : Option ℚ) : ValidationReport :=
  let checks : List VCheck :=
    [mkCheck "File Size" fs,
     mkCheck "File Validity" fv,
     mkCheck "Color Mode" cm,
     mkCheck "Dimension Limits" dl,
     mkCheck "Aspect Ratio" ar,
     mkCheck "Resolution" res,
     mkCheck "Blur Detection" bl,
     mkCheck "Brightness" br,
     mkCheck "Content Validation" cv,
     mkCheck "Timestamp" ts,
     check_screenshot_detection scr,
     check_gps lat lon]
  let ew := collectEW checks
  { is_valid := ew.1.isEmpty,
    overall_quality := pyRound (calculate_quality checks) 2,
    errors := ew.1,
    warnings := ew.2,
    checks := checks }

theorem collectEW_fst (l : List VCheck) :
    (collectEW l).1 =
      (l.filter fun c => !c.passed && decide (c.name ∈ hardErrorNames)).map
        (fun c => c.message) := by
  induction l with
  | nil => rfl
  | cons c rest ih =>
    by_cases hp : c.passed = false
    · by_cases hn : c.name ∈ hardErrorNames
      · simp [collectEW, List.filter, hp, hn, ih]
      · simp [collectEW, List.filter, hp, hn, ih]
    · have hp' : c.passed = true := by
        cases h : c.passed
        · exact absurd h hp
        · rfl
      by_cases hw : containsWarning c.message
      · simp [collectEW, List.filter, hp', hw, ih]
      · simp [collectEW, List.filter, hp', hw, ih]

/-!
## Location Verifier - `GPSVerifier` (`landmark_detector/verifier.py`)

`verify_location` mixes pure logic with four effectful inputs: the EXIF GPS
extraction, the haversine distance (float-valued `calculate_distance_km`),
the geocoder (`Geocoder.get_short_address`, which returns `None` on any
service failure and never raises - every exception is caught inside
`reverse_geocode`, `geocoder.py` lines 100-108) and the landmark finder
(`find_nearby_landmarks`, which likewise returns `[]` on failure).  Those
four enter as parameters (`exifGps`, `distFn`, `geocode`, `findLm`);
`findLm` returns `none` to model the defensive `except` of
`verify_location` lines 157-158.  Since the geocoder never raises, the
`except` branch of lines 147-149 (which would transiently set
`penalty_reason` to `ERROR_API_FAILURE`) is unreachable and is not part of
the translation.  The `penalty_reason` message strings, which interpolate
floats, are modelled as the template-plus-arguments type `Reason`.
-/

/-- The message templates (with their numeric/count arguments) that
`verify_location` can store in `penalty_reason` (`config.py` lines 46-55). -/
inductive Reason where
  | empty
  | noGpsInPhoto
  | invalidSubmittedGps
  | apiFailure
  | spoofing (distance : ℚ)
  | verifiedLandmarks (count : ℕ)
  | gpsMatch (distance : ℚ)
  | mismatch (distance : ℚ)
deriving DecidableEq, Repr

/-- The result dict of `verify_location` (lines 73-85).  Landmarks are kept
as their names. -/
structure LocationVerification where
  has_photo_gps : Bool
  photo_gps : Option (ℚ × ℚ)
  submitted_gps : Option (ℚ × ℚ)
  photo_address : Option String
  submitted_address : Option String
  distance_km : Option ℚ
  nearby_landmarks : List String
  is_spoofed : Bool
  score_adjustment : ℤ
  penalty_reason : Reason
  verification_status : String
deriving DecidableEq, Repr

/-- `SPOOFING_THRESHOLD_KM` (`config.py` line 21). -/
def SPOOFING_THRESHOLD_KM : ℚ := 5

/-- `VERIFIED_THRESHOLD_KM` (`config.py` line 22). -/
def VERIFIED_THRESHOLD_KM : ℚ := 1/2

/-- `SPOOFING_PENALTY` (`config.py` line 26). -/
def SPOOFING_PENALTY : ℤ := -50

/-- `VERIFIED_BONUS` (`config.py` line 27). -/
def VERIFIED_BONUS : ℤ := 10

/-- `NO_GPS_PENALTY` (`config.py` line 28). -/
def NO_GPS_PENALTY : ℤ := 0

/-- `GPSVerifier._is_valid_coordinate` (lines 271-295): physical coordinate
ranges.  (The `float()`-conversion `except` branch cannot fire on `ℚ`.) -/
def is_valid_coordinate (latitude longitude : ℚ) : Bool :=
  decide (-90 ≤ latitude ∧ latitude ≤ 90) && decide (-180 ≤ longitude ∧ longitude ≤ 180)

/-- `GPSVerifier._calculate_score_adjustment` (lines 176-229): returns
`(score_adjustment, is_spoofed, status, reason)` from the distance and the
number of nearby landmarks.  Note the penalty on the 0.5-5 km branch uses
Python `int()` (truncation toward zero), and that branch requires
`distance < 5` strictly. -/
def calculate_score_adjustment (distance_km : ℚ) (num_landmarks : ℕ) :
    ℤ × Bool × String × Reason :=
  if SPOOFING_THRESHOLD_KM < distance_km then
    (SPOOFING_PENALTY, true, "spoofing_detected", .spoofing distance_km)
  else if distance_km < VERIFIED_THRESHOLD_KM ∧ 2 ≤ num_landmarks then
    (VERIFIED_BONUS, false, "verified", .verifiedLandmarks num_landmarks)
  else if distance_km < VERIFIED_THRESHOLD_KM then
    (0, false, "good_match", .gpsMatch distance_km)
  else if distance_km < SPOOFING_THRESHOLD_KM then
    (pyTrunc (-10 * (distance_km / SPOOFING_THRESHOLD_KM)), false, "minor_mismatch",
      .mismatch distance_km)
  else (0, false, "unknown", .empty)

/-- Python truthiness of an optional string (`if photo_address:`): `None`
and the empty string are falsy. -/
def strTruthy : Option String → Bool
  | none => false
  | some s => !(s == "")

/-- `GPSVerifier.verify_location` (lines 43-174), from the outcomes of its
effectful inputs:
`exifGps` is the result of `ExifExtractor.extract_gps`,
`subLat`/`subLon` the user-submitted coordinates,
`distFn` is `calculate_distance_km`,
`geocode` is `Geocoder.get_short_address` (`none` = service failure),
`findLm` is the landmark lookup (`none` = it raised; the result list is
already capped/sorted by `find_nearby_landmarks`). -/
def verify_location (exifGps : Option (ℚ × ℚ)) (subLat subLon : Option ℚ)
    (distFn : ℚ → ℚ → ℚ → ℚ → ℚ) (geocode : ℚ → ℚ → Option String)
    (findLm : ℚ → ℚ → Option (List String)) : LocationVerification :=
  -- the initial `result` dict (lines 73-85)
  let result0 : LocationVerification :=
    { has_photo_gps := false, photo_gps := none, submitted_gps := none,
      photo_address := none, submitted_address := none, distance_km := none,
      nearby_landmarks := [], is_spoofed := false,
      score_adjustment := NO_GPS_PENALTY, penalty_reason := .empty,
      verification_status := "unknown" }
  match exifGps with
  | none =>
    -- Step 1 failed: no GPS in photo (lines 91-95)
    { result0 with verification_status := "no_gps_in_photo",
                   penalty_reason := .noGpsInPhoto }
  | some (photo_lat, photo_lon) =>
    let result1 :=
      { result0 with photo_gps := some (photo_lat, photo_lon), has_photo_gps := true }
    -- Step 2: validate submitted GPS if provided (lines 106-120)
    let step2 : Option (LocationVerification × ℚ × ℚ) :=
      match subLat, subLon with
      | some s_lat, some s_lon =>
        if is_valid_coordinate s_lat s_lon then
          some ({ result1 with submitted_gps := some (s_lat, s_lon) }, s_lat, s_lon)
        else none
      | _, _ =>
        some ({ result1 with submitted_gps := result1.photo_gps }, photo_lat, photo_lon)
    match step2 with
    | none =>
      { result1 with verification_status := "invalid_submitted_gps",
                     penalty_reason := .invalidSubmittedGps }
    | some (result2, submitted_lat, submitted_lon) =>
      -- Step 3: distance (lines 122-129)
      let distance_km := distFn photo_lat photo_lon submitted_lat submitted_lon
      let result3 := { result2 with distance_km := some (pyRound distance_km 3) }
      -- Step 4: geocode both locations (lines 131-149)
      let photo_address := geocode photo_lat photo_lon
      let result4a :=
        if strTruthy photo_address then { result3 with photo_address := photo_address }
        else result3
      let result4 :=
        if 1/10 < distance_km then
          let submitted_address := geocode submitted_lat submitted_lon
          if strTruthy submitted_address then
            { result4a with submitted_address := submitted_address }
          else result4a
        else { result4a with submitted_address := result4a.photo_address }
      -- Step 5: nearby landmarks, exceptions keep the initial `[]` (lines 151-158)
      let result5 :=
        { result4 with nearby_landmarks := (findLm photo_lat photo_lon).getD [] }
      -- Step 6: verdict (lines 160-171)
      let v := calculate_score_adjustment distance_km result5.nearby_landmarks.length
      { result5 with score_adjustment := v.1, is_spoofed := v.2.1,
                     verification_status := v.2.2.1, penalty_reason := v.2.2.2 }

/-!
## Layer 1 - `AIEngine` (`ai_engine.py`)

Only the pure arithmetic of `predict` (lines 136-139 and 173) and the
severity combination of `_estimate_severity` (lines 208-247) are claimed,
so those are embedded; the classifier's softmax confidence and the two
heuristics' raw image measurements enter as parameters.
-/

/-- `ai_score = round(confidence_value * 100, 2)` (line 137). -/
def ai_score (confidence : ℚ) : ℚ := pyRound (confidence * 100) 2

/-- `final_score = max(0, min(100, ai_score + score_adjustment))` followed by
`round(final_score, 2)` when building the result dict (lines 139 and 173). -/
def final_score (confidence : ℚ) (score_adjustment : ℤ) : ℚ :=
  pyRound (max 0 (min 100 (ai_score confidence + score_adjustment))) 2

/-- Severity levels (`'small'`, `'medium'`, `'large'`). -/
inductive Severity where
  | small
  | medium
  | large
deriving DecidableEq, Repr

/-- The `severity_levels` dict of `_estimate_severity` (line 229). -/
def severity_level : Severity → ℕ
  | .small => 0
  | .medium => 1
  | .large => 2

/-- The reverse lookup loop of `_estimate_severity` (lines 238-243): the
first severity whose level matches, `'medium'` as the unreachable fallback. -/
def level_to_severity (n : ℕ) : Severity :=
  if n = 0 then .small
  else if n = 1 then .medium
  else if n = 2 then .large
  else .medium

/-- Outcome of one severity heuristic's body: the severity it computed, or
`exc` when its body raised. -/
inductive HeuristicOutcome where
  | ok (s : Severity)
  | exc
deriving DecidableEq, Repr

/-- The `try`/`except` wrapper inside each of `_estimate_severity_by_size`
(lines 316-318) and `_estimate_severity_by_features` (lines 390-392): an
internal failure yields the vote `'medium'`. -/
def heuristic_vote : HeuristicOutcome → Severity
  | .ok s => s
  | .exc => .medium

/-- `_estimate_severity` (lines 208-247): take the more severe of the two
heuristics' votes via the ordinal levels.  (The outer `try`/`except` of
lines 221-247 also defaults to `'medium'`, but its body - two total
dict lookups, `max`, and the reverse loop - cannot raise once the two
heuristics have returned.) -/
def estimate_severity (size feature : HeuristicOutcome) : Severity :=
  let size_level := severity_level (heuristic_vote size)
  let feature_level := severity_level (heuristic_vote feature)
  level_to_severity (max size_level feature_level)

/-!
## Orchestrator - `LayerOrchestrator.process_report` (`layer_orchestrator.py`)

The orchestrator consumes the Layer-0 `ValidationReport` and the Layer-1
result dict; of the latter it reads `predicted_class`, `confidence`,
`is_valid_issue`, `final_score` and `message`, modelled by `AIResult`.
The f-string error of the stage-1 rejection (lines 148-151), which
interpolates the confidence, is modelled by the template type `OrchMsg`.
-/

/-- The fields of the `AIEngine.predict` result dict that
`process_report` reads. -/
structure AIResult where
  predicted_class : String
  confidence : ℚ
  is_valid_issue : Bool
  final_score : ℚ
  message : String
deriving DecidableEq, Repr

/-- Messages in the orchestrator's `errors` list: either a string forwarded
from the validation report, or the stage-1 rejection f-string with its
arguments (lines 148-151). -/
inductive OrchMsg where
  | vmsg (s : String)
  | aiInvalid (predicted_class : String) (confidence : ℚ)
deriving DecidableEq, Repr

/-- The result dict of `process_report` (lines 111-120, 146-158, 168-177). -/
structure Decision where
  passed : Bool
  errors : List OrchMsg
  warnings : List String
  layer0 : ValidationReport
  layer1 : Option AIResult
  final_score : ℚ
  agent_decision : String
  agent_reason : String
deriving DecidableEq, Repr

/-- `LayerOrchestrator.process_report` (lines 53-177), from the Layer-0
report and the Layer-1 result.  Layer 1 (`self.ai_engine.predict`) is only
consulted when Layer 0 passed; the stage-0 rejection dict mentions no field
of `ai`. -/
def process_report (validation_result : ValidationReport) (ai : AIResult) : Decision :=
  if validation_result.is_valid = false then
    { passed := false,
      errors := validation_result.errors.map .vmsg,
      warnings := validation_result.warnings,
      layer0 := validation_result,
      layer1 := none,
      final_score := 0,
      agent_decision := "REJECTED",
      agent_reason := "Image quality validation failed" }
  else if ai.is_valid_issue = false then
    { passed := false,
      errors := [.aiInvalid ai.predicted_class ai.confidence],
      warnings := validation_result.warnings,
      layer0 := validation_result,
      layer1 := some ai,
      final_score := ai.final_score,
      agent_decision := "REJECTED",
      agent_reason := "AI confidence too low or not a civic issue" }
  else
    { passed := true,
      errors := [],
      warnings := validation_result.warnings,
      layer0 := validation_result,
      layer1 := some ai,
      final_score := ai.final_score,
      agent_decision := "ACCEPTED",
      agent_reason := ai.message }

/-! ## Helper lemmas about the verifier -/

theorem calc_adj_spoof (d : ℚ) (n : ℕ) (h : 5 < d) :
    calculate_score_adjustment d n = (-50, true, "spoofing_detected", .spoofing d) := by
  unfold calculate_score_adjustment SPOOFING_THRESHOLD_KM SPOOFING_PENALTY
  rw [if_pos h]

theorem calc_adj_verified (d : ℚ) (n : ℕ) (h1 : d < 1/2) (h2 : 2 ≤ n) :
    calculate_score_adjustment d n = (10, false, "verified", .verifiedLandmarks n) := by
  unfold calculate_score_adjustment SPOOFING_THRESHOLD_KM VERIFIED_THRESHOLD_KM VERIFIED_BONUS
  rw [if_neg (by linarith), if_pos ⟨h1, h2⟩]

theorem calc_adj_good (d : ℚ) (n : ℕ) (h1 : d < 1/2) (h2 : n < 2) :
    calculate_score_adjustment d n = (0, false, "good_match", .gpsMatch d) := by
  unfold calculate_score_adjustment SPOOFING_THRESHOLD_KM VERIFIED_THRESHOLD_KM
  rw [if_neg (by linarith), if_neg (by omega), if_pos h1]

theorem calc_adj_mismatch (d : ℚ) (n : ℕ) (h1 : 1/2 ≤ d) (h2 : d < 5) :
    calculate_score_adjustment d n =
      (pyTrunc (-10 * (d / 5)), false, "minor_mismatch", .mismatch d) := by
  unfold calculate_score_adjustment SPOOFING_THRESHOLD_KM VERIFIED_THRESHOLD_KM
  rw [if_neg (by linarith), if_neg (by rintro ⟨h, -⟩; linarith), if_neg (by linarith),
    if_pos h2]

/-- On the main path (photo GPS present, submitted coordinates provided and
valid), `verify_location` returns the record computed in steps 3-6. -/
theorem verify_location_some_valid (plat plon slat slon : ℚ)
    (distFn : ℚ → ℚ → ℚ → ℚ → ℚ) (geocode : ℚ → ℚ → Option String)
    (findLm : ℚ → ℚ → Option (List String))
    (hvalid : is_valid_coordinate slat slon = true) :
    verify_location (some (plat, plon)) (some slat) (some slon) distFn geocode findLm =
      { has_photo_gps := true,
        photo_gps := some (plat, plon),
        submitted_gps := some (slat, slon),
        photo_address := if strTruthy (geocode plat plon) then geocode plat plon else none,
        submitted_address :=
          if 1/10 < distFn plat plon slat slon then
            (if strTruthy (geocode slat slon) then geocode slat slon else none)
          else (if strTruthy (geocode plat plon) then geocode plat plon else none),
        distance_km := some (pyRound (distFn plat plon slat slon) 3),
        nearby_landmarks := (findLm plat plon).getD [],
        is_spoofed :=
          (calculate_score_adjustment (distFn plat plon slat slon)
            ((findLm plat plon).getD []).length).2.1,
        score_adjustment :=
          (calculate_score_adjustment (distFn plat plon slat slon)
            ((findLm plat plon).getD []).length).1,
        penalty_reason :=
          (calculate_score_adjustment (distFn plat plon slat slon)
            ((findLm plat plon).getD []).length).2.2.2,
        verification_status :=
          (calculate_score_adjustment (distFn plat plon slat slon)
            ((findLm plat plon).getD []).length).2.2.1 } := by
  unfold verify_location
  simp only [hvalid, eq_self_iff_true, if_true]
  split_ifs <;> rfl

/-- Step-1 early return of `verify_location`: no GPS in the photo. -/
theorem verify_location_no_gps (subLat subLon : Option ℚ)
    (distFn : ℚ → ℚ → ℚ → ℚ → ℚ) (geocode : ℚ → ℚ → Option String)
    (findLm : ℚ → ℚ → Option (List String)) :
    verify_location none subLat subLon distFn geocode findLm =
      { has_photo_gps := false, photo_gps := none, submitted_gps := none,
        photo_address := none, submitted_address := none, distance_km := none,
        nearby_landmarks := [], is_spoofed := false, score_adjustment := 0,
        penalty_reason := .noGpsInPhoto,
        verification_status := "no_gps_in_photo" } := rfl

/-- Step-2 early return of `verify_location`: submitted coordinates present
but physically invalid. -/
theorem verify_location_invalid (plat plon slat slon : ℚ)
    (distFn : ℚ → ℚ → ℚ → ℚ → ℚ) (geocode : ℚ → ℚ → Option String)
    (findLm : ℚ → ℚ → Option (List String))
    (h : is_valid_coordinate slat slon = false) :
    verify_location (some (plat, plon)) (some slat) (some slon) distFn geocode findLm =
      { has_photo_gps := true, photo_gps := some (plat, plon), submitted_gps := none,
        photo_address := none, submitted_address := none, distance_km := none,
        nearby_landmarks := [], is_spoofed := false, score_adjustment := 0,
        penalty_reason := .invalidSubmittedGps,
        verification_status := "invalid_submitted_gps" } := by
  unfold verify_location
  simp [h, NO_GPS_PENALTY]

/-- The self-comparison path of `verify_location`: submitted coordinates not
(both) provided, so the photo point is compared with itself. -/
theorem verify_location_self (plat plon : ℚ) (subLat subLon : Option ℚ)
    (distFn : ℚ → ℚ → ℚ → ℚ → ℚ) (geocode : ℚ → ℚ → Option String)
    (findLm : ℚ → ℚ → Option (List String))
    (h : subLat.isSome = false ∨ subLon.isSome = false) :
    verify_location (some (plat, plon)) subLat subLon distFn geocode findLm =
      { has_photo_gps := true,
        photo_gps := some (plat, plon),
        submitted_gps := some (plat, plon),
        photo_address := if strTruthy (geocode plat plon) then geocode plat plon else none,
        submitted_address :=
          if 1/10 < distFn plat plon plat plon then
            (if strTruthy (geocode plat plon) then geocode plat plon else none)
          else (if strTruthy (geocode plat plon) then geocode plat plon else none),
        distance_km := some (pyRound (distFn plat plon plat plon) 3),
        nearby_landmarks := (findLm plat plon).getD [],
        is_spoofed :=
          (calculate_score_adjustment (distFn plat plon plat plon)
            ((findLm plat plon).getD []).length).2.1,
        score_adjustment :=
          (calculate_score_adjustment (distFn plat plon plat plon)
            ((findLm plat plon).getD []).length).1,
        penalty_reason :=
          (calculate_score_adjustment (distFn plat plon plat plon)
            ((findLm plat plon).getD []).length).2.2.2,
        verification_status :=
          (calculate_score_adjustment (distFn plat plon plat plon)
            ((findLm plat plon).getD []).length).2.2.1 } := by
  rcases subLat with _ | slat <;> rcases subLon with _ | slon
  · dsimp only [verify_location]
    split_ifs <;> rfl
  · dsimp only [verify_location]
    split_ifs <;> rfl
  · dsimp only [verify_location]
    split_ifs <;> rfl
  · simp at h

theorem calc_adj_status_ne_invalid (d : ℚ) (n : ℕ) :
    ((calculate_score_adjustment d n).2.2.1 == "invalid_submitted_gps") = false := by
  unfold calculate_score_adjustment
  split_ifs <;> rfl

/-- C2: on the main verification path (photo GPS present, submitted
coordinates valid), distance above 5 km gives `spoofing_detected` with
adjustment −50 and the spoof flag; distance below 0.5 km with at least two
landmarks gives `verified` with +10; distance below 0.5 km with fewer
landmarks gives `good_match` with 0. -/
theorem claim_C2 (plat plon slat slon : ℚ)
    (distFn : ℚ → ℚ → ℚ → ℚ → ℚ) (geocode : ℚ → ℚ → Option String)
    (findLm : ℚ → ℚ → Option (List String))
    (hvalid : is_valid_coordinate slat slon = true) :
    (5 < distFn plat plon slat slon →
      (verify_location (some (plat, plon)) (some slat) (some slon) distFn geocode
        findLm).verification_status = "spoofing_detected" ∧
      (verify_location (some (plat, plon)) (some slat) (some slon) distFn geocode
        findLm).score_adjustment = -50 ∧
      (verify_location (some (plat, plon)) (some slat) (some slon) distFn geocode
        findLm).is_spoofed = true) ∧
    (distFn plat plon slat slon < 1/2 → 2 ≤ ((findLm plat plon).getD []).length →
      (verify_location (some (plat, plon)) (some slat) (some slon) distFn geocode
        findLm).verification_status = "verified" ∧
      (verify_location (some (plat, plon)) (some slat) (some slon) distFn geocode
        findLm).score_adjustment = 10 ∧
      (verify_location (some (plat, plon)) (some slat) (some slon) distFn geocode
        findLm).is_spoofed = false) ∧
    (distFn plat plon slat slon < 1/2 → ((findLm plat plon).getD []).length < 2 →
      (verify_location (some (plat, plon)) (some slat) (some slon) distFn geocode
        findLm).verification_status = "good_match" ∧
      (verify_location (some (plat, plon)) (some slat) (some slon) distFn geocode
        findLm).score_adjustment = 0 ∧
      (verify_location (some (plat, plon)) (some slat) (some slon) distFn geocode
        findLm).is_spoofed = false) := by
  rw [verify_location_some_valid _ _ _ _ _ _ _ hvalid]
  refine ⟨fun h5 => ?_, fun hd hn => ?_, fun hd hn => ?_⟩
  · simp [calc_adj_spoof _ _ h5]
  · simp [calc_adj_verified _ _ hd hn]
  · simp [calc_adj_good _ _ hd hn]

/-- Witness for C2: concrete runs at distance 6 km (0 landmarks), 0.2 km
with 2 landmarks, and 0.2 km with a failing landmark lookup. -/
theorem claim_C2_witness :
    ((verify_location (some (33, 73)) (some 33) (some 73) (fun _ _ _ _ => 6)
        (fun _ _ => none) (fun _ _ => none)).verification_status = "spoofing_detected" ∧
      (verify_location (some (33, 73)) (some 33) (some 73) (fun _ _ _ _ => 6)
        (fun _ _ => none) (fun _ _ => none)).score_adjustment = -50 ∧
      (verify_location (some (33, 73)) (some 33) (some 73) (fun _ _ _ _ => 6)
        (fun _ _ => none) (fun _ _ => none)).is_spoofed = true) ∧
    ((verify_location (some (33, 73)) (some 33) (some 73) (fun _ _ _ _ => 1/5)
        (fun _ _ => none) (fun _ _ => some ["a", "b"])).verification_status = "verified" ∧
      (verify_location (some (33, 73)) (some 33) (some 73) (fun _ _ _ _ => 1/5)
        (fun _ _ => none) (fun _ _ => some ["a", "b"])).score_adjustment = 10 ∧
      (verify_location (some (33, 73)) (some 33) (some 73) (fun _ _ _ _ => 1/5)
        (fun _ _ => none) (fun _ _ => some ["a", "b"])).is_spoofed = false) ∧
    ((verify_location (some (33, 73)) (some 33) (some 73) (fun _ _ _ _ => 1/5)
        (fun _ _ => none) (fun _ _ => none)).verification_status = "good_match" ∧
      (verify_location (some (33, 73)) (some 33) (some 73) (fun _ _ _ _ => 1/5)
        (fun _ _ => none) (fun _ _ => none)).score_adjustment = 0 ∧
      (verify_location (some (33, 73)) (some 33) (some 73) (fun _ _ _ _ => 1/5)
        (fun _ _ => none) (fun _ _ => none)).is_spoofed = false) := by
  refine ⟨?_, ?_, ?_⟩
  · exact (claim_C2 33 73 33 73 (fun _ _ _ _ => 6) (fun _ _ => none) (fun _ _ => none)
      (by decide)).1 (by norm_num)
  · exact (claim_C2 33 73 33 73 (fun _ _ _ _ => 1/5) (fun _ _ => none)
      (fun _ _ => some ["a", "b"]) (by decide)).2.1 (by norm_num) (by decide)
  · exact (claim_C2 33 73 33 73 (fun _ _ _ _ => 1/5) (fun _ _ => none) (fun _ _ => none)
      (by decide)).2.2 (by norm_num) (by decide)

/-- Counterexample for C3 as stated: at distance exactly 5 km (which the
claim includes in the `minor_mismatch` band) the code returns status
`unknown`, and at distance 0.9 km the code's penalty is `int(-1.8) = -1`
where the claim's formula `round(-10*0.9/5) = round(-1.8)` is `-2`. -/
theorem claim_C3_counterexample :
    (verify_location (some (33, 73)) (some 33) (some 73) (fun _ _ _ _ => 5)
      (fun _ _ => none) (fun _ _ => none)).verification_status = "unknown" ∧
    ((1 : ℚ)/2 ≤ 5 ∧ (5 : ℚ) ≤ 5) ∧
    (verify_location (some (33, 73)) (some 33) (some 73) (fun _ _ _ _ => 9/10)
      (fun _ _ => none) (fun _ _ => none)).score_adjustment = -1 ∧
    round ((-10 : ℚ) * ((9/10) / 5)) = -2 ∧
    ((1 : ℚ)/2 ≤ 9/10 ∧ (9 : ℚ)/10 ≤ 5) := by
  have h1 := verify_location_some_valid 33 73 33 73 (fun _ _ _ _ => 5)
    (fun _ _ => none) (fun _ _ => none) (by decide)
  have h2 := verify_location_some_valid 33 73 33 73 (fun _ _ _ _ => 9/10)
    (fun _ _ => none) (fun _ _ => none) (by decide)
  rw [h1, h2]
  refine ⟨?_, by norm_num, ?_, by norm_num [round_eq], by norm_num⟩
  · norm_num [calculate_score_adjustment, SPOOFING_THRESHOLD_KM, VERIFIED_THRESHOLD_KM]
  · rw [show ((fun _ _ _ _ => (9:ℚ)/10) (33:ℚ) (73:ℚ) (33:ℚ) (73:ℚ)) = 9/10 from rfl,
      calc_adj_mismatch _ _ (by norm_num) (by norm_num)]
    norm_num [pyTrunc]

/-- C3 (amended): on the main verification path, a distance `d` with
`0.5 ≤ d < 5` (the upper endpoint excluded: `d = 5` yields `unknown`) gives
`minor_mismatch`, no spoof flag, and score adjustment
`int(-10 * d / 5)` with Python `int()` truncation toward zero (so
`d = 2.5` yields −5, but e.g. `-1.8` truncates to `-1`, not `round`'s `-2`). -/
theorem claim_C3_amended (plat plon slat slon : ℚ)
    (distFn : ℚ → ℚ → ℚ → ℚ → ℚ) (geocode : ℚ → ℚ → Option String)
    (findLm : ℚ → ℚ → Option (List String))
    (hvalid : is_valid_coordinate slat slon = true)
    (h1 : 1/2 ≤ distFn plat plon slat slon) (h2 : distFn plat plon slat slon < 5) :
    (verify_location (some (plat, plon)) (some slat) (some slon) distFn geocode
      findLm).verification_status = "minor_mismatch" ∧
    (verify_location (some (plat, plon)) (some slat) (some slon) distFn geocode
      findLm).is_spoofed = false ∧
    (verify_location (some (plat, plon)) (some slat) (some slon) distFn geocode
      findLm).score_adjustment = pyTrunc (-10 * (distFn plat plon slat slon / 5)) := by
  rw [verify_location_some_valid _ _ _ _ _ _ _ hvalid]
  simp [calc_adj_mismatch _ _ h1 h2]

/-- Witness for the amended C3: distance 2.5 km yields `minor_mismatch`
with adjustment −5. -/
theorem claim_C3_amended_witness :
    (verify_location (some (33, 73)) (some 33) (some 73) (fun _ _ _ _ => 5/2)
      (fun _ _ => none) (fun _ _ => none)).verification_status = "minor_mismatch" ∧
    (verify_location (some (33, 73)) (some 33) (some 73) (fun _ _ _ _ => 5/2)
      (fun _ _ => none) (fun _ _ => none)).is_spoofed = false ∧
    (verify_location (some (33, 73)) (some 33) (some 73) (fun _ _ _ _ => 5/2)
      (fun _ _ => none) (fun _ _ => none)).score_adjustment = -5 := by
  have h := claim_C3_amended 33 73 33 73 (fun _ _ _ _ => 5/2) (fun _ _ => none)
    (fun _ _ => none) (by decide) (by norm_num) (by norm_num)
  refine ⟨h.1, h.2.1, ?_⟩
  rw [h.2.2]
  norm_num [pyTrunc]

/-- Counterexample for C6 as stated: with photo GPS present and submitted
coordinates provided but physically invalid (latitude 91), the returned
verification has `has_photo_gps = true` yet no `distance_km`. -/
theorem claim_C6_counterexample :
    (verify_location (some (33, 73)) (some 91) (some 70) (fun _ _ _ _ => 0)
      (fun _ _ => none) (fun _ _ => none)).has_photo_gps = true ∧
    (verify_location (some (33, 73)) (some 91) (some 70) (fun _ _ _ _ => 0)
      (fun _ _ => none) (fun _ _ => none)).verification_status = "invalid_submitted_gps" ∧
    (verify_location (some (33, 73)) (some 91) (some 70) (fun _ _ _ _ => 0)
      (fun _ _ => none) (fun _ _ => none)).distance_km = none := by
  rw [verify_location_invalid _ _ _ _ _ _ _ (by decide)]
  exact ⟨rfl, rfl, rfl⟩

/-- C6 (amended): `distance_km` is present iff the photo has GPS and the
verification did not stop at `invalid_submitted_gps`; in the
`invalid_submitted_gps` early return, `has_photo_gps` is already true but
`distance_km` stays absent. -/
theorem claim_C6_amended (exifGps : Option (ℚ × ℚ)) (subLat subLon : Option ℚ)
    (distFn : ℚ → ℚ → ℚ → ℚ → ℚ) (geocode : ℚ → ℚ → Option String)
    (findLm : ℚ → ℚ → Option (List String)) :
    (verify_location exifGps subLat subLon distFn geocode findLm).distance_km.isSome =
      ((verify_location exifGps subLat subLon distFn geocode findLm).has_photo_gps &&
        !((verify_location exifGps subLat subLon distFn geocode
            findLm).verification_status == "invalid_submitted_gps")) := by
  rcases exifGps with _ | ⟨plat, plon⟩
  · rw [verify_location_no_gps]
    rfl
  · rcases hlat : subLat with _ | slat
    · rw [verify_location_self plat plon none subLon distFn geocode findLm (Or.inl rfl)]
      simp [calc_adj_status_ne_invalid]
    · rcases hlon : subLon with _ | slon
      · rw [verify_location_self plat plon (some slat) none distFn geocode findLm
          (Or.inr rfl)]
        simp [calc_adj_status_ne_invalid]
      · by_cases hv : is_valid_coordinate slat slon = true
        · rw [verify_location_some_valid _ _ _ _ _ _ _ hv]
          simp [calc_adj_status_ne_invalid]
        · rw [verify_location_invalid _ _ _ _ _ _ _ (by
            cases h : is_valid_coordinate slat slon
            · rfl
            · exact absurd h hv)]
          rfl

/-- Counterexample for C7 as stated: with the geocoder failing (service
unavailable) on a run whose verdict is `good_match`, the returned
verification's `penalty_reason` is the verdict's message, not the
`ERROR_API_FAILURE` failure reason - no geocoding-failure reason is
recorded in the returned result. -/
theorem claim_C7_counterexample :
    (verify_location (some (33, 73)) (some 33) (some 73) (fun _ _ _ _ => 0)
      (fun _ _ => none) (fun _ _ => some [])).photo_address = none ∧
    (verify_location (some (33, 73)) (some 33) (some 73) (fun _ _ _ _ => 0)
      (fun _ _ => none) (fun _ _ => some [])).penalty_reason = Reason.gpsMatch 0 ∧
    ¬((verify_location (some (33, 73)) (some 33) (some 73) (fun _ _ _ _ => 0)
      (fun _ _ => none) (fun _ _ => some [])).penalty_reason = Reason.apiFailure) := by
  rw [verify_location_some_valid _ _ _ _ _ _ _ (by decide)]
  refine ⟨by norm_num [strTruthy], ?_, ?_⟩
  · show (calculate_score_adjustment 0 _).2.2.2 = _
    rw [calc_adj_good 0 _ (by norm_num) (by decide)]
  · show ¬((calculate_score_adjustment 0 _).2.2.2 = _)
    rw [calc_adj_good 0 _ (by norm_num) (by decide)]
    simp

/-- C7 (amended): a geocoding failure is non-fatal: the verification
completes with the addresses absent, and the distance-based verdict
(`verification_status`, `score_adjustment`, `is_spoofed`) and the final
`penalty_reason` are exactly those of a run whose geocoder succeeded;
no geocoding-failure reason survives in the returned result (the
`penalty_reason` is always overwritten with the verdict's reason in step 6). -/
theorem claim_C7_amended (exifGps : Option (ℚ × ℚ)) (subLat subLon : Option ℚ)
    (distFn : ℚ → ℚ → ℚ → ℚ → ℚ) (geocode : ℚ → ℚ → Option String)
    (findLm : ℚ → ℚ → Option (List String)) :
    (verify_location exifGps subLat subLon distFn (fun _ _ => none)
      findLm).verification_status =
      (verify_location exifGps subLat subLon distFn geocode findLm).verification_status ∧
    (verify_location exifGps subLat subLon distFn (fun _ _ => none)
      findLm).score_adjustment =
      (verify_location exifGps subLat subLon distFn geocode findLm).score_adjustment ∧
    (verify_location exifGps subLat subLon distFn (fun _ _ => none)
      findLm).is_spoofed =
      (verify_location exifGps subLat subLon distFn geocode findLm).is_spoofed ∧
    (verify_location exifGps subLat subLon distFn (fun _ _ => none)
      findLm).penalty_reason =
      (verify_location exifGps subLat subLon distFn geocode findLm).penalty_reason ∧
    (verify_location exifGps subLat subLon distFn (fun _ _ => none)
      findLm).photo_address = none ∧
    (verify_location exifGps subLat subLon distFn (fun _ _ => none)
      findLm).submitted_address = none := by
  rcases exifGps with _ | ⟨plat, plon⟩
  · rw [verify_location_no_gps, verify_location_no_gps]
    exact ⟨rfl, rfl, rfl, rfl, rfl, rfl⟩
  · rcases hlat : subLat with _ | slat
    · rw [verify_location_self plat plon none subLon distFn (fun _ _ => none) findLm
        (Or.inl rfl),
        verify_location_self plat plon none subLon distFn geocode findLm (Or.inl rfl)]
      simp [strTruthy]
    · rcases hlon : subLon with _ | slon
      · rw [verify_location_self plat plon (some slat) none distFn (fun _ _ => none)
          findLm (Or.inr rfl),
          verify_location_self plat plon (some slat) none distFn geocode findLm
          (Or.inr rfl)]
        simp [strTruthy]
      · by_cases hv : is_valid_coordinate slat slon = true
        · rw [verify_location_some_valid _ _ _ _ _ _ _ hv,
            verify_location_some_valid _ _ _ _ _ _ _ hv]
          simp [strTruthy]
        · have hv' : is_valid_coordinate slat slon = false := by
            cases h : is_valid_coordinate slat slon
            · rfl
            · exact absurd h hv
          rw [verify_location_invalid _ _ _ _ _ _ _ hv',
            verify_location_invalid _ _ _ _ _ _ _ hv']
          exact ⟨rfl, rfl, rfl, rfl, rfl, rfl⟩

/-- C1: `process_report` rejects with decision `REJECTED`, score 0, reason
"Image quality validation failed" and without consulting the classifier
when validation failed; rejects with the classifier's own `final_score`
when validation passed but the prediction is not a valid issue; and
otherwise accepts with decision `ACCEPTED`, the classifier's `final_score`
and the classifier's message as the reason. -/
theorem claim_C1 (v : ValidationReport) (ai ai2 : AIResult) :
    (v.is_valid = false →
      (process_report v ai).passed = false ∧
      (process_report v ai).agent_decision = "REJECTED" ∧
      (process_report v ai).final_score = 0 ∧
      (process_report v ai).agent_reason = "Image quality validation failed" ∧
      (process_report v ai).layer1 = none ∧
      process_report v ai = process_report v ai2) ∧
    (v.is_valid = true → ai.is_valid_issue = false →
      (process_report v ai).passed = false ∧
      (process_report v ai).agent_decision = "REJECTED" ∧
      (process_report v ai).final_score = ai.final_score) ∧
    (v.is_valid = true → ai.is_valid_issue = true →
      (process_report v ai).passed = true ∧
      (process_report v ai).agent_decision = "ACCEPTED" ∧
      (process_report v ai).final_score = ai.final_score ∧
      (process_report v ai).agent_reason = ai.message) := by
  refine ⟨fun h0 => ?_, fun h0 h1 => ?_, fun h0 h1 => ?_⟩
  · simp [process_report, h0]
  · simp [process_report, h0, h1]
  · simp [process_report, h0, h1]

/-- Witness for C1: concrete reports through each of the three branches. -/
theorem claim_C1_witness :
    ((process_report ⟨false, 0, ["e"], [], []⟩ ⟨"pothole", 9/10, true, 90, "ok"⟩).passed
        = false ∧
      (process_report ⟨false, 0, ["e"], [], []⟩ ⟨"pothole", 9/10, true, 90, "ok"⟩).final_score
        = 0 ∧
      process_report ⟨false, 0, ["e"], [], []⟩ ⟨"pothole", 9/10, true, 90, "ok"⟩ =
        process_report ⟨false, 0, ["e"], [], []⟩ ⟨"garbage", 1/10, false, 10, "no"⟩) ∧
    ((process_report ⟨true, 80, [], [], []⟩ ⟨"other", 2/5, false, 40, "m"⟩).passed = false ∧
      (process_report ⟨true, 80, [], [], []⟩ ⟨"other", 2/5, false, 40, "m"⟩).final_score
        = 40) ∧
    ((process_report ⟨true, 80, [], [], []⟩ ⟨"pothole", 9/10, true, 90, "ok"⟩).passed
        = true ∧
      (process_report ⟨true, 80, [], [], []⟩ ⟨"pothole", 9/10, true, 90, "ok"⟩).agent_reason
        = "ok") := by
  refine ⟨⟨?_, ?_, ?_⟩, ⟨?_, ?_⟩, ⟨?_, ?_⟩⟩
  · exact ((claim_C1 ⟨false, 0, ["e"], [], []⟩ ⟨"pothole", 9/10, true, 90, "ok"⟩
      ⟨"garbage", 1/10, false, 10, "no"⟩).1 rfl).1
  · exact ((claim_C1 ⟨false, 0, ["e"], [], []⟩ ⟨"pothole", 9/10, true, 90, "ok"⟩
      ⟨"garbage", 1/10, false, 10, "no"⟩).1 rfl).2.2.1
  · exact ((claim_C1 ⟨false, 0, ["e"], [], []⟩ ⟨"pothole", 9/10, true, 90, "ok"⟩
      ⟨"garbage", 1/10, false, 10, "no"⟩).1 rfl).2.2.2.2.2
  · exact ((claim_C1 ⟨true, 80, [], [], []⟩ ⟨"other", 2/5, false, 40, "m"⟩
      ⟨"other", 2/5, false, 40, "m"⟩).2.1 rfl rfl).1
  · exact ((claim_C1 ⟨true, 80, [], [], []⟩ ⟨"other", 2/5, false, 40, "m"⟩
      ⟨"other", 2/5, false, 40, "m"⟩).2.1 rfl rfl).2.2
  · exact ((claim_C1 ⟨true, 80, [], [], []⟩ ⟨"pothole", 9/10, true, 90, "ok"⟩
      ⟨"pothole", 9/10, true, 90, "ok"⟩).2.2 rfl rfl).1
  · exact ((claim_C1 ⟨true, 80, [], [], []⟩ ⟨"pothole", 9/10, true, 90, "ok"⟩
      ⟨"pothole", 9/10, true, 90, "ok"⟩).2.2 rfl rfl).2.2.2

/-- C8: the final severity's ordinal level is the maximum of the two
heuristics' levels under small < medium < large (so size `small` combined
with features `large` yields `large`), and an internal failure in a
heuristic makes that heuristic's vote `medium`. -/
theorem claim_C8 (size feature : HeuristicOutcome) :
    severity_level (estimate_severity size feature) =
      max (severity_level (heuristic_vote size)) (severity_level (heuristic_vote feature)) ∧
    estimate_severity (.ok .small) (.ok .large) = .large ∧
    heuristic_vote .exc = .medium := by
  refine ⟨?_, rfl, rfl⟩
  cases size with
  | ok s =>
    cases feature with
    | ok f => cases s <;> cases f <;> rfl
    | exc => cases s <;> rfl
  | exc =>
    cases feature with
    | ok f => cases f <;> rfl
    | exc => rfl

theorem clamp_mul_100 (K : ℤ) :
    max 0 (min 100 ((K : ℚ)/100)) * 100 = ((max 0 (min 10000 K) : ℤ) : ℚ) := by
  rcases le_total (K : ℤ) 10000 with hK1 | hK1
  · have h1 : ((K : ℚ)/100) ≤ 100 := by
      rw [div_le_iff₀ (by norm_num : (0:ℚ) < 100)]
      exact_mod_cast hK1
    rw [min_eq_right h1, min_eq_right hK1]
    rcases le_total (0 : ℤ) K with hK2 | hK2
    · rw [max_eq_right (div_nonneg (by exact_mod_cast hK2) (by norm_num)),
        max_eq_right hK2]
      field_simp
    · rw [max_eq_left (div_nonpos_of_nonpos_of_nonneg (by exact_mod_cast hK2)
        (by norm_num)), max_eq_left hK2]
      norm_num
  · have h1 : (100 : ℚ) ≤ (K : ℚ)/100 := by
      rw [le_div_iff₀ (by norm_num : (0:ℚ) < 100)]
      exact_mod_cast hK1
    rw [min_eq_left h1, min_eq_left hK1]
    norm_num

/-- The clamped score of `predict` is an integer multiple of 1/100, so the
final `round(final_score, 2)` leaves it unchanged and it equals the clamp
itself. -/
theorem final_score_eq_clamp (confidence : ℚ) (adj : ℤ) :
    final_score confidence adj = max 0 (min 100 (ai_score confidence + adj)) := by
  have hsum : ai_score confidence + (adj : ℚ) =
      ((pyRoundInt (confidence * 100 * 10 ^ 2) + 100 * adj : ℤ) : ℚ) / 100 := by
    unfold ai_score pyRound
    push_cast
    ring
  unfold final_score
  rw [hsum, pyRound_eq_self]
  rw [show ((10:ℚ) ^ 2) = 100 by norm_num, clamp_mul_100]
  exact Rat.den_intCast _

/-- C5: `predict` computes `ai_score` as the confidence times 100 rounded to
2 decimals, and the returned `final_score` equals
`clamp(ai_score + score_adjustment, 0, 100)`, hence always lies in [0, 100];
confidence 0.95 (ai_score 95) with adjustment +10 yields exactly 100. -/
theorem claim_C5 (confidence : ℚ) (adj : ℤ) :
    final_score confidence adj = max 0 (min 100 (ai_score confidence + adj)) ∧
    0 ≤ final_score confidence adj ∧
    final_score confidence adj ≤ 100 ∧
    ai_score (19/20) = 95 ∧
    final_score (19/20) 10 = 100 := by
  refine ⟨final_score_eq_clamp confidence adj, ?_, ?_, ?_, ?_⟩
  · rw [final_score_eq_clamp]
    exact le_max_left _ _
  · rw [final_score_eq_clamp]
    exact max_le (by norm_num) (min_le_left _ _)
  · norm_num [ai_score, pyRound, pyRoundInt]
  · rw [final_score_eq_clamp]
    norm_num [ai_score, pyRound, pyRoundInt, min_def, max_def]

theorem pyRound_den (q : ℚ) (nd : ℕ) : (pyRound q nd * 10 ^ nd).den = 1 := by
  unfold pyRound
  rw [div_mul_cancel₀]
  · exact Rat.den_intCast _
  · positivity

theorem pyRound_idem (q : ℚ) (nd : ℕ) : pyRound (pyRound q nd) nd = pyRound q nd :=
  pyRound_eq_self _ _ (pyRound_den q nd)

/-- C9: the 6-decimal GPS rounding of `_check_gps` is idempotent
(a coordinate already at 6 decimals is returned unchanged, so `check_gps`
gives the same verdict on pre-rounded coordinates), it is applied before the
Pakistan bounds check, and latitude 23.0000001 rounds to 23.000000 and is
judged in-bounds (the check passes with an in-bounds longitude). -/
theorem claim_C9 :
    (∀ q : ℚ, (q * 10 ^ 6).den = 1 → pyRound q 6 = q) ∧
    (∀ lat lon : ℚ, check_gps (some lat) (some lon) =
      check_gps (some (pyRound lat 6)) (some (pyRound lon 6))) ∧
    pyRound (230000001/10000000 : ℚ) 6 = 23 ∧
    (check_gps (some (230000001/10000000)) (some 70)).passed = true := by
  refine ⟨fun q h => pyRound_eq_self q 6 h, fun lat lon => ?_, ?_, ?_⟩
  · unfold check_gps
    dsimp only
    rw [pyRound_idem, pyRound_idem]
  · norm_num [pyRound, pyRoundInt]
  · norm_num [check_gps, pyRound, pyRoundInt]

/-- Witness for C9: 23.5 has at most 6 decimal places and 6-decimal rounding
returns it unchanged. -/
theorem claim_C9_witness :
    ((47/2 : ℚ) * 10 ^ 6).den = 1 ∧ pyRound (47/2 : ℚ) 6 = 47/2 := by
  have h : (47/2 : ℚ) * 10 ^ 6 = ((23500000 : ℤ) : ℚ) := by norm_num
  constructor
  · rw [h]
    exact Rat.den_intCast _
  · exact claim_C9.1 (47/2) (by rw [h]; exact Rat.den_intCast _)

theorem check_screenshot_passed (scr : ScreenshotInput) :
    (check_screenshot_detection scr).passed = true := by
  cases scr with
  | ok w h e =>
    dsimp only [check_screenshot_detection]
    split <;> rfl
  | err => rfl

theorem check_screenshot_name (scr : ScreenshotInput) :
    (check_screenshot_detection scr).name = "Screenshot Detection" := by
  cases scr with
  | ok w h e =>
    dsimp only [check_screenshot_detection]
    split <;> rfl
  | err => rfl

theorem check_gps_name (lat lon : Option ℚ) :
    (check_gps lat lon).name = "GPS Validation" := by
  unfold check_gps
  rcases lat with _ | a <;> rcases lon with _ | b
  · rfl
  · rfl
  · rfl
  · dsimp only
    split <;> rfl

set_option maxHeartbeats 1000000 in
/-- C4: `validate_all` returns `is_valid = true` exactly when none of the
five hard-error checks (File Validity, Resolution, Blur Detection,
Brightness, GPS Validation) failed; the outcome of every other check and
the numeric `overall_quality` play no role in `is_valid`. -/
theorem claim_C4 (fs fv cm dl ar res bl br cv ts : VBody)
    (scr : ScreenshotInput) (lat lon : Option ℚ) :
    (validate_all fs fv cm dl ar res bl br cv ts scr lat lon).is_valid =
      (fv.passed && res.passed && bl.passed && br.passed &&
        (check_gps lat lon).passed) := by
  unfold validate_all
  dsimp only
  rw [collectEW_fst]
  simp only [List.filter_cons, List.filter_nil, mkCheck, hardErrorNames,
    check_screenshot_passed, check_screenshot_name, check_gps_name,
    List.mem_cons, List.mem_singleton, List.not_mem_nil]
  cases hfv : fv.passed <;> cases hres : res.passed <;> cases hbl : bl.passed <;>
    cases hbr : br.passed <;> cases hgp : (check_gps lat lon).passed <;>
      simp_all

set_option maxHeartbeats 1000000 in
/-- C10: the Screenshot Detection check always returns `passed = true` -
score 100 normally, 60 when the screenshot heuristic triggers (a warning),
80 when reading the image raised internally - so it never contributes to
the `errors` list of `validate_all` and can never, by itself, change
`is_valid`. -/
theorem claim_C10 (scr scr2 : ScreenshotInput) (fs fv cm dl ar res bl br cv ts : VBody)
    (lat lon : Option ℚ) :
    (check_screenshot_detection scr).passed = true ∧
    (check_screenshot_detection scr).score =
      (match scr with
       | .ok w h e => if screenshot_ratio_match w h && minimal_exif e then 60 else 100
       | .err => 80) ∧
    (validate_all fs fv cm dl ar res bl br cv ts scr lat lon).errors =
      (validate_all fs fv cm dl ar res bl br cv ts scr2 lat lon).errors ∧
    (validate_all fs fv cm dl ar res bl br cv ts scr lat lon).is_valid =
      (validate_all fs fv cm dl ar res bl br cv ts scr2 lat lon).is_valid := by
  have key : ∀ s : ScreenshotInput,
      (validate_all fs fv cm dl ar res bl br cv ts s lat lon).errors =
        (validate_all fs fv cm dl ar res bl br cv ts ScreenshotInput.err lat lon).errors := by
    intro s
    unfold validate_all
    dsimp only
    rw [collectEW_fst, collectEW_fst]
    simp only [List.filter_cons, List.filter_nil, mkCheck, hardErrorNames,
      check_screenshot_passed, check_screenshot_name, check_gps_name,
      List.mem_cons, List.mem_singleton, List.not_mem_nil]
    simp
  have herr : (validate_all fs fv cm dl ar res bl br cv ts scr lat lon).errors =
      (validate_all fs fv cm dl ar res bl br cv ts scr2 lat lon).errors :=
    (key scr).trans (key scr2).symm
  refine ⟨check_screenshot_passed scr, ?_, herr, ?_⟩
  · cases scr with
    | ok w h e =>
      dsimp only [check_screenshot_detection]
      split <;> simp_all
    | err => rfl
  · show (validate_all fs fv cm dl ar res bl br cv ts scr lat lon).errors.isEmpty =
      (validate_all fs fv cm dl ar res bl br cv ts scr2 lat lon).errors.isEmpty
    rw [herr]
